import Mathlib

/-!
Verification development for the AskaDB natural-language-to-SQL translator
(`app/services/llm_service.py`).  The Python service is shallowly embedded:

* Python strings are Lean `String`s; `str.lower()` is `pyLower` (ASCII case
  folding, which agrees with Python on every string appearing in the claims,
  all of whose non-ASCII characters are already lower case);
* the Python substring test `sub in s` is `pyIn sub s`, infix containment of
  the character lists;
* JSON-like dynamic values (the `schema` payload, typed `Dict[str, Any]` by
  pydantic) are the inductive `PyVal`; attribute errors raised by calling
  `.get`/`.items()` on a non-dict are modelled with `Except String`;
* the external OpenAI model call is an opaque parameter
  `modelCall : String → Except String String` (prompt in, content out, or a
  raised failure), and the presence of an API key is the Boolean `hasClient`.
-/

/-- Python `str.lower()` restricted to ASCII case folding. -/
def pyLower (s : String) : String := ⟨s.data.map Char.toLower⟩

/-- Does `sub` occur as a contiguous block of the list?  (Checked at every
suffix.) -/
def charsInfixOf (sub : List Char) : List Char → Bool
  | [] => sub.isEmpty
  | c :: rest => sub.isPrefixOf (c :: rest) || charsInfixOf sub rest

/-- Python `sub in s` substring containment. -/
def pyIn (sub s : String) : Bool := charsInfixOf sub.data s.data

/-- Python `str.strip()` (leading/trailing whitespace removal). -/
def pyStrip (s : String) : String :=
  ⟨((s.data.dropWhile Char.isWhitespace).reverse.dropWhile Char.isWhitespace).reverse⟩

/-- Dynamic values as delivered by the JSON body (pydantic `Any`). -/
inductive PyVal where
  | none : PyVal
  | str : String → PyVal
  | int : Int → PyVal
  | dict : List (String × PyVal) → PyVal

/-- Python truthiness (`bool(v)`), used by `request.schema or default_schema`. -/
def pyTruthy : PyVal → Bool
  | PyVal.none => false
  | PyVal.str s => !s.isEmpty
  | PyVal.int n => n != 0
  | PyVal.dict entries => !entries.isEmpty

/-- Rendering of a dynamic value inside an f-string (`str(v)`).  The exact
text for nested dicts differs from CPython's `repr`; no claim depends on it,
only on whether schema formatting raises. -/
def pyStr : PyVal → String
  | PyVal.none => "None"
  | PyVal.str s => s
  | PyVal.int n => toString n
  | PyVal.dict _ => "\x7b...\x7d"

/-- Python `v.get(key, default)`: dictionary lookup with default, raising
`AttributeError` when `v` is not a dict. -/
def pyGet (v : PyVal) (key : String) (default : PyVal) : Except String PyVal :=
  match v with
  | PyVal.dict entries =>
      match entries.lookup key with
      | some x => Except.ok x
      | Option.none => Except.ok default
  | _ => Except.error "AttributeError"

/-- Python `v.items()`: the entry list of a dict, raising `AttributeError`
when `v` is not a dict. -/
def pyItems (v : PyVal) : Except String (List (String × PyVal)) :=
  match v with
  | PyVal.dict entries => Except.ok entries
  | _ => Except.error "AttributeError"

/-! ## `LLMService._fallback_sql`

Each local of the Python function becomes a definition over `q`, the
already-lowered question text, exactly as in the source (`q = question.lower()`
is applied once at the top of `fallback_sql`). -/

/-- Local `measure` of `_fallback_sql`: `'quantity'` when a quantity keyword
occurs, else the default `'sales_amount'`. -/
def measure_col (q : String) : String :=
  if pyIn "quantidade" q || pyIn "quantity" q then "quantity" else "sales_amount"

/-- Local `has_region` of `_fallback_sql`. -/
def has_region (q : String) : Bool := pyIn "região" q || pyIn "region" q

/-- Local `has_product` of `_fallback_sql`. -/
def has_product (q : String) : Bool := pyIn "produto" q || pyIn "product" q

/-- Local `has_month` of `_fallback_sql`. -/
def has_month (q : String) : Bool :=
  pyIn "mês" q || pyIn "mes" q || pyIn "month" q || pyIn "tempo" q ||
  pyIn "tend" q || pyIn "crescimento" q || pyIn "variação" q || pyIn "evolução" q

/-- Local `wants_top` of `_fallback_sql`. -/
def wants_top (q : String) : Bool :=
  pyIn "top" q || pyIn "maiores" q || pyIn "rank" q || pyIn "melhores" q

/-- Local `limit` of `_fallback_sql`:
`10 if '10' in q else (5 if '5' in q or 'cinco' in q else 0)`. -/
def limit_val (q : String) : Nat :=
  if pyIn "10" q then 10 else if pyIn "5" q || pyIn "cinco" q then 5 else 0

/-- The dimension columns appended by the three `if has_…` blocks, in source
order: month, then product, then region. -/
def raw_dims (q : String) : List String :=
  (if has_month q then ["month"] else []) ++
  (if has_product q then ["product"] else []) ++
  (if has_region q then ["region"] else [])

/-- Local `group_cols` after the default-dimension block
(`if not select_cols: … append('product')`). -/
def group_cols (q : String) : List String :=
  if raw_dims q = [] then ["product"] else raw_dims q

/-- The aggregate entry `f"SUM({measure}) AS total_{measure}"`. -/
def sum_expr (q : String) : String :=
  "SUM(" ++ measure_col q ++ ") AS total_" ++ measure_col q

/-- Local `select_cols` after the aggregate append: the group columns followed
by the SUM expression. -/
def select_cols (q : String) : List String := group_cols q ++ [sum_expr q]

/-- Local `select_clause`: `', '.join(select_cols)`. -/
def select_clause (q : String) : String := String.intercalate ", " (select_cols q)

/-- Local `group_clause`. -/
def group_clause (q : String) : String :=
  if group_cols q ≠ [] then " GROUP BY " ++ String.intercalate ", " (group_cols q) else ""

/-- The chronological month `CASE` expression of `_fallback_sql`, verbatim. -/
def month_case_expr : String :=
  "CASE lower(month) WHEN 'january' THEN 1 WHEN 'february' THEN 2 WHEN 'march' THEN 3 WHEN 'april' THEN 4 WHEN 'may' THEN 5 WHEN 'june' THEN 6 WHEN 'july' THEN 7 WHEN 'august' THEN 8 WHEN 'september' THEN 9 WHEN 'october' THEN 10 WHEN 'november' THEN 11 WHEN 'december' THEN 12 ELSE 99 END"

/-- Local `order_clause`: the month `CASE` ordering when the group columns are
exactly `['month']`, else `total_<measure> DESC`. -/
def order_clause (q : String) : String :=
  " ORDER BY " ++
    (if group_cols q = ["month"] then month_case_expr
     else "total_" ++ measure_col q ++ " DESC")

/-- Local `limit_clause`:
`f" LIMIT {limit}" if wants_top and limit > 0 else (" LIMIT 5" if wants_top else "")`. -/
def limit_clause (q : String) : String :=
  if wants_top q = true ∧ 0 < limit_val q then " LIMIT " ++ toString (limit_val q)
  else if wants_top q = true then " LIMIT 5"
  else ""

/-- Embedding of `LLMService._fallback_sql`, the heuristic SQL generator.  The
local `table` is the constant `'sales'`. -/
def fallback_sql (question : String) : String :=
  let q := pyLower question
  "SELECT " ++ select_clause q ++ " FROM " ++ "sales" ++
    group_clause q ++ order_clause q ++ limit_clause q

/-! ## `LLMService._generate_suggestions` -/

/-- The sales/quantity keyword test of `_generate_suggestions`. -/
def sales_kw (ql : String) : Bool :=
  pyIn "vendas" ql || pyIn "sales" ql || pyIn "amount" ql || pyIn "quantidade" ql

/-- The region/product keyword test of `_generate_suggestions`. -/
def region_product_kw (ql : String) : Bool :=
  pyIn "região" ql || pyIn "region" ql || pyIn "produto" ql || pyIn "product" ql

/-- The time/growth keyword test of `_generate_suggestions` (note: `tendência`
and `trend` are absent from this list, unlike `_fallback_sql`'s `tend`). -/
def time_kw (ql : String) : Bool :=
  pyIn "tempo" ql || pyIn "time" ql || pyIn "mês" ql || pyIn "month" ql ||
  pyIn "crescimento" ql || pyIn "variação" ql || pyIn "evolução" ql

/-- The visualization suggestion list of `_generate_suggestions`. -/
def visualizations (question : String) : List String :=
  let ql := pyLower question
  if sales_kw ql then
    if region_product_kw ql then ["bar_chart"]
    else if time_kw ql then ["line_chart"]
    else ["pie_chart"]
  else ["table"]

/-- The follow-up question list of `_generate_suggestions`. -/
def follow_up_questions (question : String) : List String :=
  let ql := pyLower question
  if pyIn "região" ql || pyIn "region" ql then
    ["Quais regiões tiveram melhor performance?", "Compare vendas por região e produto"]
  else if pyIn "produto" ql || pyIn "product" ql then
    ["Qual produto teve maior crescimento?", "Mostre vendas por produto ao longo do tempo"]
  else
    ["Quero vendas por região no mês de maio", "Mostre os top 5 produtos por quantidade vendida"]

/-- Embedding of `LLMService._generate_suggestions`.  The `schema` argument is
received but never read by the Python body. -/
def generate_suggestions (question : String) (_schema : PyVal) :
    List String × List String :=
  (visualizations question, follow_up_questions question)

/-! ## `LLMService._format_schema` and `LLMService._build_prompt`

`_format_schema` runs before the protective `try:` block of `generate_query`,
so any `AttributeError` it raises (calling `.get`/`.items()` on a non-dict
field of the supplied schema) escapes `generate_query`; this is modelled by
the `Except` error propagating out of `build_prompt`. -/

/-- The inner column loop of `_format_schema`. -/
def format_cols : List (String × PyVal) → Except String String
  | [] => Except.ok ""
  | (colName, colInfo) :: rest =>
      match pyGet colInfo "type" (PyVal.str "TEXT") with
      | Except.error e => Except.error e
      | Except.ok ty =>
          match pyGet colInfo "description" (PyVal.str "") with
          | Except.error e => Except.error e
          | Except.ok desc =>
              match format_cols rest with
              | Except.error e => Except.error e
              | Except.ok tail =>
                  Except.ok ("  - " ++ colName ++ " (" ++ pyStr ty ++ "): " ++
                    pyStr desc ++ "\n" ++ tail)

/-- The outer table loop of `_format_schema`. -/
def format_tables : List (String × PyVal) → Except String String
  | [] => Except.ok ""
  | (tableName, tableInfo) :: rest =>
      match pyGet tableInfo "columns" (PyVal.dict []) with
      | Except.error e => Except.error e
      | Except.ok colsVal =>
          match pyItems colsVal with
          | Except.error e => Except.error e
          | Except.ok colEntries =>
              match format_cols colEntries with
              | Except.error e => Except.error e
              | Except.ok colsText =>
                  match format_tables rest with
                  | Except.error e => Except.error e
                  | Except.ok tail =>
                      Except.ok ("\nTable: " ++ tableName ++ "\n" ++ colsText ++ tail)

/-- Embedding of `LLMService._format_schema`. -/
def format_schema (schema : PyVal) : Except String String :=
  match pyGet schema "tables" (PyVal.dict []) with
  | Except.error e => Except.error e
  | Except.ok tablesVal =>
      match pyItems tablesVal with
      | Except.error e => Except.error e
      | Except.ok tableEntries =>
          match format_tables tableEntries with
          | Except.error e => Except.error e
          | Except.ok tablesText => Except.ok ("Database Schema:\n" ++ tablesText)

/-- The built-in example block of `_build_prompt`, used when the caller
supplies no (or an empty) example list. -/
def default_examples_text : String :=
  "
Examples:
Question: Quero vendas por região no mês de maio
SQL: SELECT region, SUM(sales_amount) AS total_sales FROM sales WHERE month = 'May' GROUP BY region ORDER BY total_sales DESC

Question: Mostre os top 5 produtos por quantidade vendida
SQL: SELECT product, SUM(quantity) AS total_quantity FROM sales GROUP BY product ORDER BY total_quantity DESC LIMIT 5

Question: Compare vendas por produto e região
SQL: SELECT product, region, SUM(sales_amount) AS total_sales FROM sales GROUP BY product, region ORDER BY product, region

Question: Vendas por mês ao longo do tempo
SQL: SELECT month, SUM(sales_amount) AS total_sales FROM sales GROUP BY month ORDER BY CASE lower(month)
  WHEN 'january' THEN 1 WHEN 'february' THEN 2 WHEN 'march' THEN 3 WHEN 'april' THEN 4 WHEN 'may' THEN 5 WHEN 'june' THEN 6 WHEN 'july' THEN 7 WHEN 'august' THEN 8 WHEN 'september' THEN 9 WHEN 'october' THEN 10 WHEN 'november' THEN 11 WHEN 'december' THEN 12 ELSE 99 END
"

/-- The fixed guideline block of `_build_prompt`. -/
def guidelines_text : String :=
  "
Instructions:
- Return ONLY the SQL. No markdown, no explanations.
- Use SELECT-only queries compatible with SQLite.
- Prefer aggregated results (SUM of measures) and GROUP BY all non-aggregated columns.
- Detect intent and structure the SQL accordingly:
  - Growth/variação/evolução/tendência: SELECT time period (e.g., month) and SUM(metric), GROUP BY period (and any secondary category if present). Do NOT compute growth in SQL; just return the aggregated time series for the visualization layer to compute.
  - Proporção/participação/percentual: SELECT category and SUM(metric), GROUP BY category.
  - Comparar duas dimensões (ex.: produto e região): SELECT both dimensions and SUM(metric), GROUP BY both.
  - Ranking/top/bottom: ORDER BY aggregated metric and add LIMIT (e.g., 5 ou 10).
- Choose a single main measure relevant to the question: prefer sales_amount; fallback to quantity.
- Keep column names as in the schema (product, region, month, sales_amount, quantity).
- Avoid SELECT *; select only necessary columns.
- Do not filter months unless the question specifies; keep the full range available.
"

/-- The `examples_text` local of `_build_prompt`: render caller-supplied
question/SQL pairs, or the built-in block when the list is falsy (absent or
empty). -/
def examples_text (examples : Option (List (List (String × String)))) : String :=
  match examples with
  | Option.none => default_examples_text
  | some [] => default_examples_text
  | some exs =>
      "\n\nExamples:\n" ++
        String.join (exs.map (fun ex =>
          "Question: " ++ ((ex.lookup "question").getD "") ++ "\n" ++
          "SQL: " ++ ((ex.lookup "sql").getD "") ++ "\n\n"))

/-- Embedding of `LLMService._build_prompt`.  Fails exactly when `format_schema` fails. -/
def build_prompt (question : String) (schema : PyVal)
    (examples : Option (List (List (String × String)))) : Except String String :=
  match format_schema schema with
  | Except.error e => Except.error e
  | Except.ok schemaDesc =>
      Except.ok ("Given the following database schema:\n\n" ++ schemaDesc ++ "\n\n" ++
        examples_text examples ++ "\n\n" ++ guidelines_text ++ "\n\nQuestion: " ++
        question ++ "\n\nReturn only the SQL query that answers the question.\n")

/-! ## `LLMService.generate_query` -/

/-- The `default_schema` dict of `generate_query`, transcribed verbatim. -/
def default_schema : PyVal :=
  PyVal.dict [("tables", PyVal.dict [("sales", PyVal.dict [("columns", PyVal.dict
    [("id", PyVal.dict [("type", PyVal.str "INTEGER"), ("description", PyVal.str "Primary key")]),
     ("region", PyVal.dict [("type", PyVal.str "TEXT"), ("description", PyVal.str "Sales region (North, South, East, West)")]),
     ("product", PyVal.dict [("type", PyVal.str "TEXT"), ("description", PyVal.str "Product name (Product A, Product B)")]),
     ("month", PyVal.dict [("type", PyVal.str "TEXT"), ("description", PyVal.str "Month name (January, February, etc.)")]),
     ("sales_amount", PyVal.dict [("type", PyVal.str "REAL"), ("description", PyVal.str "Total sales amount in currency")]),
     ("quantity", PyVal.dict [("type", PyVal.str "INTEGER"), ("description", PyVal.str "Number of units sold")]),
     ("created_at", PyVal.dict [("type", PyVal.str "DATETIME"), ("description", PyVal.str "Record creation timestamp")])])])])]

/-- Embedding of `schema = request.schema or default_schema`: the default
replaces an absent or falsy (empty-dict) supplied schema. -/
def resolve_schema (oschema : Option PyVal) : PyVal :=
  match oschema with
  | some v => if pyTruthy v then v else default_schema
  | Option.none => default_schema

/-- The request body (`QueryRequest` pydantic model): `question : str`,
`schema : Optional[Dict[str, Any]]`, `examples : Optional[List[Dict[str, str]]]`.
The unused `context` field is omitted. -/
structure QueryRequest where
  question : String
  schema : Option PyVal
  examples : Option (List (List (String × String)))

/-- The dict returned by `generate_query` (the service-level translation
result; mirrored by the `QueryResponse` model). -/
structure TranslationResult where
  query : String
  confidence : ℚ
  explanation : String
  suggested_visualizations : List String
  suggested_follow_up_questions : List String

/-- Embedding of `LLMService.generate_query`.  `hasClient` models `self.client` being
configured (an `OPENAI_API_KEY` present); `modelCall` is the opaque external
model invocation, from the composed prompt to the stripped-later message
content, with `Except.error` standing for a raised exception.  The
`Except.error` results of `generate_query` itself are exceptions escaping the
Python method (only possible from `_build_prompt`, which runs outside the
`try:` block). -/
def generate_query (hasClient : Bool) (modelCall : String → Except String String)
    (request : QueryRequest) : Except String TranslationResult :=
  let schema := resolve_schema request.schema
  if hasClient = false then
    Except.ok
      { query := fallback_sql request.question
        confidence := 0.7
        explanation := "Heuristic SQL for: '" ++ request.question ++ "'"
        suggested_visualizations := (generate_suggestions request.question schema).1
        suggested_follow_up_questions := (generate_suggestions request.question schema).2 }
  else
    match build_prompt request.question schema request.examples with
    | Except.error e => Except.error e
    | Except.ok prompt =>
      match modelCall prompt with
      | Except.ok content =>
        Except.ok
          { query := pyStrip content
            confidence := 0.95
            explanation := "Generated SQL query for: '" ++ request.question ++ "'"
            suggested_visualizations := (generate_suggestions request.question schema).1
            suggested_follow_up_questions := (generate_suggestions request.question schema).2 }
      | Except.error e =>
        Except.ok
          { query := fallback_sql request.question
            confidence := 0.6
            explanation := "Fallback SQL due to error: " ++ e
            suggested_visualizations := (generate_suggestions request.question schema).1
            suggested_follow_up_questions := (generate_suggestions request.question schema).2 }

/-- The result string begins, case-insensitively, with `SELECT`. -/
def select_prefixed (s : String) : Bool :=
  "select".data.isPrefixOf (pyLower s).data

/-- Is the dynamic value a dict? -/
def is_dict : PyVal → Bool
  | PyVal.dict _ => true
  | _ => false

/-- A table descriptor is well formed for `_format_schema` when it is a dict
whose `columns` entry (when present) is a dict of dict-valued columns. -/
def table_ok (tableInfo : PyVal) : Bool :=
  match tableInfo with
  | PyVal.dict entries =>
      (match entries.lookup "columns" with
       | some (PyVal.dict cols) => cols.all (fun e => is_dict e.2)
       | some _ => false
       | Option.none => true)
  | _ => false

/-- A schema value is well formed for `_format_schema` when it is a dict whose
`tables` entry (when present) is a dict of well-formed table descriptors. -/
def schema_wf (schema : PyVal) : Bool :=
  match schema with
  | PyVal.dict entries =>
      (match entries.lookup "tables" with
       | some (PyVal.dict tables) => tables.all (fun e => table_ok e.2)
       | some _ => false
       | Option.none => true)
  | _ => false

/-- Did `generate_query` return normally (rather than let an exception escape)? -/
def returns_result (r : Except String TranslationResult) : Bool :=
  match r with
  | Except.ok _ => true
  | Except.error _ => false

/-- Did a string-producing step succeed? -/
def ok_str (r : Except String String) : Bool :=
  match r with
  | Except.ok _ => true
  | Except.error _ => false

theorem pyGet_dict (es : List (String × PyVal)) (k : String) (d : PyVal) :
    pyGet (PyVal.dict es) k d = Except.ok ((es.lookup k).getD d) := by
  cases h : es.lookup k <;> simp [pyGet, h]

theorem format_cols_ok :
    ∀ cols : List (String × PyVal), cols.all (fun e => is_dict e.2) = true →
      ok_str (format_cols cols) = true := by
  intro cols
  induction cols with
  | nil => intro _; rfl
  | cons hd tl ih =>
      intro h
      obtain ⟨n, v⟩ := hd
      simp only [List.all_cons, Bool.and_eq_true] at h
      obtain ⟨h1, h2⟩ := h
      have htl := ih h2
      cases v with
      | dict es =>
          cases hfc : format_cols tl with
          | error e => rw [hfc] at htl; exact absurd htl (by simp [ok_str])
          | ok t => simp [format_cols, pyGet_dict, hfc, ok_str]
      | none => simp [is_dict] at h1
      | str s => simp [is_dict] at h1
      | int m => simp [is_dict] at h1

theorem format_tables_ok :
    ∀ tables : List (String × PyVal), tables.all (fun e => table_ok e.2) = true →
      ok_str (format_tables tables) = true := by
  intro tables
  induction tables with
  | nil => intro _; rfl
  | cons hd tl ih =>
      intro h
      obtain ⟨n, v⟩ := hd
      simp only [List.all_cons, Bool.and_eq_true] at h
      obtain ⟨h1, h2⟩ := h
      have htl := ih h2
      cases hft : format_tables tl with
      | error e => rw [hft] at htl; exact absurd htl (by simp [ok_str])
      | ok t =>
          cases v with
          | dict es =>
              simp only [table_ok] at h1
              cases hc : es.lookup "columns" with
              | none => simp [format_tables, pyGet_dict, hc, pyItems, format_cols, hft, ok_str]
              | some cv =>
                  rw [hc] at h1
                  cases cv with
                  | dict cols =>
                      have hfc := format_cols_ok cols h1
                      cases hcc : format_cols cols with
                      | error e => rw [hcc] at hfc; exact absurd hfc (by simp [ok_str])
                      | ok ct => simp [format_tables, pyGet_dict, hc, pyItems, hcc, hft, ok_str]
                  | none => simp at h1
                  | str s => simp at h1
                  | int m => simp at h1
          | none => simp [table_ok] at h1
          | str s => simp [table_ok] at h1
          | int m => simp [table_ok] at h1

theorem format_schema_ok (schema : PyVal) (h : schema_wf schema = true) :
    ok_str (format_schema schema) = true := by
  cases schema with
  | dict es =>
      simp only [schema_wf] at h
      cases hv : es.lookup "tables" with
      | none => simp [format_schema, pyGet_dict, hv, pyItems, format_tables, ok_str]
      | some tv =>
          rw [hv] at h
          cases tv with
          | dict tables =>
              have hft := format_tables_ok tables h
              cases htt : format_tables tables with
              | error e => rw [htt] at hft; exact absurd hft (by simp [ok_str])
              | ok t => simp [format_schema, pyGet_dict, hv, pyItems, htt, ok_str]
          | none => simp at h
          | str s => simp at h
          | int m => simp at h
  | none => simp [schema_wf] at h
  | str s => simp [schema_wf] at h
  | int m => simp [schema_wf] at h

theorem build_prompt_ok (question : String) (schema : PyVal)
    (examples : Option (List (List (String × String)))) (h : schema_wf schema = true) :
    ok_str (build_prompt question schema examples) = true := by
  have hfs := format_schema_ok schema h
  cases hs : format_schema schema with
  | error e => rw [hs] at hfs; exact absurd hfs (by simp [ok_str])
  | ok t => simp [build_prompt, hs, ok_str]

theorem fallback_query_of_confidence_ne (hc : Bool) (mc : String → Except String String)
    (req : QueryRequest) (r : TranslationResult)
    (hok : generate_query hc mc req = Except.ok r) (hne : r.confidence ≠ 0.95) :
    r.query = fallback_sql req.question := by
  cases hc with
  | false =>
      simp [generate_query] at hok
      rw [← hok]
  | true =>
      cases hbp : build_prompt req.question (resolve_schema req.schema) req.examples with
      | error e => simp [generate_query, hbp] at hok
      | ok p =>
          cases hmc : mc p with
          | ok content =>
              simp [generate_query, hbp, hmc] at hok
              rw [← hok] at hne
              simp at hne
          | error e =>
              simp [generate_query, hbp, hmc] at hok
              rw [← hok]

theorem isPrefixOf_select_append (l : List Char) :
    "select".data.isPrefixOf ("select ".data ++ l) = true := rfl

theorem select_prefixed_fallback (question : String) :
    select_prefixed (fallback_sql question) = true := by
  have hmap : List.map Char.toLower "SELECT ".data = "select ".data := by decide
  show "select".data.isPrefixOf ((fallback_sql question).data.map Char.toLower) = true
  simp only [fallback_sql, String.data_append, List.map_append, List.append_assoc, hmap]
  exact isPrefixOf_select_append _

theorem select_prefixed_ne_empty (s : String) (h : select_prefixed s = true) : s ≠ "" := by
  intro he
  rw [he] at h
  exact absurd h (by decide)

/-- Spec-side reading of the C6 rank-limit rule: scan the lowered question
left to right and take the FIRST occurrence of `10`, `5` or `cinco`
(`10 → 10`, `5`/`cinco` → 5), defaulting to 5 when none occurs. -/
def spec_scan_limit : List Char → Option Nat
  | [] => Option.none
  | c :: rest =>
      if "10".data.isPrefixOf (c :: rest) then some 10
      else if "5".data.isPrefixOf (c :: rest) then some 5
      else if "cinco".data.isPrefixOf (c :: rest) then some 5
      else spec_scan_limit rest

def spec_rank_limit (question : String) : Nat :=
  (spec_scan_limit (pyLower question).data).getD 5

/-- Spec-side reading of the C7 visualization precedence: a flat chain in
which the time/trend test is reached even without a sales keyword. -/
def spec_visualization (question : String) : String :=
  let ql := pyLower question
  if sales_kw ql && region_product_kw ql then "bar_chart"
  else if time_kw ql then "line_chart"
  else if sales_kw ql then "pie_chart"
  else "table"

/-- C1 (counterexample): on the model-success path the query is exactly the
stripped model output; with model content `"hello"` (for the non-empty
question `"vendas"`) it does not begin with `SELECT`. -/
theorem C1_counterexample :
    (generate_query true (fun _ => Except.ok "hello")
        { question := "vendas", schema := Option.none, examples := Option.none }).toOption.map
      (fun r => (r.query, select_prefixed r.query)) = some ("hello", false) ∧
    "vendas" ≠ "" := by
  constructor
  · rfl
  · decide

/-- C1 (amended): on both fallback paths — no credential (confidence 0.7) and
model-call failure (confidence 0.6), i.e. whenever the result is not the
0.95-confidence model-success record — the query is non-empty and begins,
case-insensitively, with `SELECT`. -/
theorem C1_fallback_select (hc : Bool) (mc : String → Except String String)
    (req : QueryRequest) (r : TranslationResult) (_hq : req.question ≠ "")
    (hok : generate_query hc mc req = Except.ok r) (hfb : r.confidence ≠ 0.95) :
    r.query ≠ "" ∧ select_prefixed r.query = true := by
  rw [fallback_query_of_confidence_ne hc mc req r hok hfb]
  exact ⟨select_prefixed_ne_empty _ (select_prefixed_fallback req.question),
    select_prefixed_fallback req.question⟩

theorem C1_fallback_select_witness :
    fallback_sql "vendas" ≠ "" ∧ select_prefixed (fallback_sql "vendas") = true :=
  C1_fallback_select false (fun _ => Except.error "boom")
    { question := "vendas", schema := Option.none, examples := Option.none }
    { query := fallback_sql "vendas", confidence := 0.7,
      explanation := "Heuristic SQL for: '" ++ "vendas" ++ "'",
      suggested_visualizations := (generate_suggestions "vendas" (resolve_schema Option.none)).1,
      suggested_follow_up_questions := (generate_suggestions "vendas" (resolve_schema Option.none)).2 }
    (by decide) rfl (by norm_num)

/-- C2 (counterexample): a schema whose `tables` field is not a dict (a value
pydantic admits, since the payload is `Dict[str, Any]`) makes `_build_prompt`
raise `AttributeError` outside the `try:` block, so `generate_query` raises
instead of returning a result, in the model-available configuration. -/
theorem C2_counterexample :
    generate_query true (fun _ => Except.ok "SELECT 1")
      { question := "vendas", schema := some (PyVal.dict [("tables", PyVal.int 3)]),
        examples := Option.none } = Except.error "AttributeError" := rfl

/-- C2 (amended): `generate_query` returns a `TranslationResult` for every
question, schema and examples value in the model-unavailable configuration,
and in the model-available configuration whenever every schema field that
`_format_schema` dereferences is a dict; a malformed field escapes as an
exception (see the counterexample). -/
theorem C2_totality_amended (hc : Bool) (mc : String → Except String String)
    (req : QueryRequest) (h : hc = true → schema_wf (resolve_schema req.schema) = true) :
    returns_result (generate_query hc mc req) = true := by
  cases hc with
  | false => rfl
  | true =>
      have hp := build_prompt_ok req.question (resolve_schema req.schema) req.examples (h rfl)
      cases hbp : build_prompt req.question (resolve_schema req.schema) req.examples with
      | error e => rw [hbp] at hp; exact absurd hp (by simp [ok_str])
      | ok p =>
          cases hmc : mc p with
          | ok content => simp [generate_query, hbp, hmc, returns_result]
          | error e => simp [generate_query, hbp, hmc, returns_result]

theorem C2_totality_amended_witness :
    returns_result (generate_query true (fun _ => Except.ok "SELECT 1")
      { question := "vendas", schema := Option.none, examples := Option.none }) = true :=
  C2_totality_amended true (fun _ => Except.ok "SELECT 1")
    { question := "vendas", schema := Option.none, examples := Option.none }
    (fun _ => by decide)

/-- C3: confidence is exactly 0.7 on the no-credential path and, in the
model-available configuration (with the prompt built), exactly 0.95 when the
model call returns and exactly 0.6 when it raises; on both fallback paths the
query is the heuristic builder's output for the same question. -/
theorem C3_confidence_policy (hc : Bool) (mc : String → Except String String)
    (req : QueryRequest) (r : TranslationResult)
    (hok : generate_query hc mc req = Except.ok r) :
    (hc = false → r.confidence = 0.7 ∧ r.query = fallback_sql req.question) ∧
    (∀ p, hc = true →
      build_prompt req.question (resolve_schema req.schema) req.examples = Except.ok p →
      (∀ s, mc p = Except.ok s → r.confidence = 0.95) ∧
      (∀ e, mc p = Except.error e →
        r.confidence = 0.6 ∧ r.query = fallback_sql req.question)) := by
  constructor
  · intro hfalse
    subst hfalse
    simp [generate_query] at hok
    rw [← hok]
    exact ⟨rfl, rfl⟩
  · intro p htrue hbp
    subst htrue
    constructor
    · intro s hmc
      simp [generate_query, hbp, hmc] at hok
      rw [← hok]
    · intro e hmc
      simp [generate_query, hbp, hmc] at hok
      rw [← hok]
      exact ⟨rfl, rfl⟩

theorem C3_confidence_policy_witness :
    (0.6 : ℚ) = 0.6 ∧ fallback_sql "vendas" = fallback_sql "vendas" :=
  ((C3_confidence_policy true (fun _ => Except.error "boom")
      { question := "vendas", schema := Option.none, examples := Option.none } _ rfl).2
    _ rfl rfl).2 "boom" rfl

/-- C4: the grouping dimensions of the heuristic SQL always form a subsequence
of the canonical order `[month, product, region]` (so the SELECT list, which
is the group columns followed by the aggregate, lists them in that order too),
and when both product and region keywords match, product immediately precedes
region. -/
theorem C4_dimension_order (question : String) :
    (group_cols (pyLower question)).Sublist ["month", "product", "region"] ∧
    group_cols (pyLower question) <+: select_cols (pyLower question) ∧
    (has_product (pyLower question) = true → has_region (pyLower question) = true →
      group_cols (pyLower question) = ["product", "region"] ∨
      group_cols (pyLower question) = ["month", "product", "region"]) := by
  refine ⟨?_, List.prefix_append _ _, ?_⟩
  · cases hm : has_month (pyLower question) <;>
      cases hp : has_product (pyLower question) <;>
        cases hr : has_region (pyLower question) <;>
          simp [group_cols, raw_dims, hm, hp, hr]
  · intro hp hr
    cases hm : has_month (pyLower question) <;>
      simp [group_cols, raw_dims, hm, hp, hr]

theorem C4_dimension_order_witness :
    group_cols (pyLower "vendas por região e produto") = ["product", "region"] ∨
    group_cols (pyLower "vendas por região e produto") = ["month", "product", "region"] :=
  (C4_dimension_order "vendas por região e produto").2.2 (by decide) (by decide)

/-- C5: the heuristic ORDER BY clause is the calendar-order month CASE
expression exactly when the sole grouping dimension is `month`; in every other
case it sorts by `total_<measure> DESC`. -/
theorem C5_order_by_policy (question : String) :
    (order_clause (pyLower question) = " ORDER BY " ++ month_case_expr ↔
      group_cols (pyLower question) = ["month"]) ∧
    (group_cols (pyLower question) ≠ ["month"] →
      order_clause (pyLower question) =
        " ORDER BY " ++ ("total_" ++ measure_col (pyLower question) ++ " DESC")) := by
  by_cases h : group_cols (pyLower question) = ["month"]
  · constructor
    · simp [order_clause, h]
    · intro hne; exact absurd h hne
  · constructor
    · constructor
      · intro heq
        exfalso
        rw [order_clause, if_neg h] at heq
        by_cases hm : pyIn "quantidade" (pyLower question) || pyIn "quantity" (pyLower question)
        · rw [measure_col, if_pos hm] at heq
          exact absurd heq (by decide)
        · rw [measure_col, if_neg hm] at heq
          exact absurd heq (by decide)
      · intro heq; exact absurd heq h
    · intro _
      simp [order_clause, h]

theorem C5_order_by_policy_witness :
    order_clause (pyLower "vendas por produto") =
      " ORDER BY " ++ ("total_" ++ measure_col (pyLower "vendas por produto") ++ " DESC") :=
  (C5_order_by_policy "vendas por produto").2 (by decide)

/-- C6 (counterexample): for the ranking question `"top 5 com 10"`, the first
embedded small integer (scanning the text) is 5, but the code checks the
substring `10` with priority over `5`, so the emitted clause is ` LIMIT 10`. -/
theorem C6_counterexample :
    wants_top (pyLower "top 5 com 10") = true ∧
    spec_rank_limit "top 5 com 10" = 5 ∧
    limit_clause (pyLower "top 5 com 10") = " LIMIT 10" ∧
    pyIn " LIMIT 10" (fallback_sql "top 5 com 10") = true := by decide

/-- C6 (amended): the heuristic SQL carries a LIMIT clause exactly when the
question contains a ranking keyword; its value is 10 whenever the substring
`10` occurs anywhere in the question, and otherwise 5 (whether via the
substring `5`, the word `cinco`, or the default). -/
theorem C6_limit_policy (question : String) :
    (limit_clause (pyLower question) = "" ↔ wants_top (pyLower question) = false) ∧
    (wants_top (pyLower question) = true →
      limit_clause (pyLower question) =
        (if pyIn "10" (pyLower question) then " LIMIT 10" else " LIMIT 5")) := by
  by_cases ht : wants_top (pyLower question) = true
  · constructor
    · constructor
      · intro hempty
        exfalso
        by_cases h10 : pyIn "10" (pyLower question)
        · rw [limit_clause, limit_val, if_pos h10, if_pos ⟨ht, by norm_num⟩] at hempty
          exact absurd hempty (by decide)
        · by_cases h5 : pyIn "5" (pyLower question) || pyIn "cinco" (pyLower question)
          · rw [limit_clause, limit_val, if_neg h10, if_pos h5,
              if_pos ⟨ht, by norm_num⟩] at hempty
            exact absurd hempty (by decide)
          · rw [limit_clause, limit_val, if_neg h10, if_neg h5] at hempty
            rw [if_neg (by simp), if_pos ht] at hempty
            exact absurd hempty (by decide)
      · intro hfalse; rw [ht] at hfalse; exact absurd hfalse (by decide)
    · intro _
      by_cases h10 : pyIn "10" (pyLower question)
      · rw [limit_clause, limit_val, if_pos h10, if_pos ⟨ht, by norm_num⟩, if_pos h10]
        rfl
      · rw [if_neg h10]
        by_cases h5 : pyIn "5" (pyLower question) || pyIn "cinco" (pyLower question)
        · rw [limit_clause, limit_val, if_neg h10, if_pos h5, if_pos ⟨ht, by norm_num⟩]
          rfl
        · rw [limit_clause, limit_val, if_neg h10, if_neg h5, if_neg (by simp), if_pos ht]
  · rw [Bool.not_eq_true] at ht
    constructor
    · constructor
      · intro _; exact ht
      · intro _
        rw [limit_clause, if_neg (by simp [ht]), if_neg (by simp [ht])]
    · intro htrue; rw [ht] at htrue; exact absurd htrue (by decide)

theorem C6_limit_policy_witness :
    limit_clause (pyLower "top 10 produtos") = " LIMIT 10" :=
  (C6_limit_policy "top 10 produtos").2 (by decide)

/-- C7 (counterexample): the question `"tempo"` matches a time keyword but no
sales/quantity keyword; the claimed flat precedence yields `line_chart`, but
the code only reaches the time test behind the sales test and returns
`table`. -/
theorem C7_counterexample :
    time_kw (pyLower "tempo") = true ∧
    sales_kw (pyLower "tempo") = false ∧
    spec_visualization "tempo" = "line_chart" ∧
    visualizations "tempo" = ["table"] := by decide

/-- C7 (amended): the visualization suggestion is `bar_chart` when a
sales/quantity keyword and a region/product keyword match; `line_chart` when a
sales/quantity keyword matches together with a time keyword but no
region/product keyword; `pie_chart` when a sales/quantity keyword matches
alone; and `table` whenever no sales/quantity keyword matches — the time test
is only reached behind a sales/quantity match. -/
theorem C7_visualization_policy (question : String) :
    (sales_kw (pyLower question) = true → region_product_kw (pyLower question) = true →
      visualizations question = ["bar_chart"]) ∧
    (sales_kw (pyLower question) = true → region_product_kw (pyLower question) = false →
      time_kw (pyLower question) = true → visualizations question = ["line_chart"]) ∧
    (sales_kw (pyLower question) = true → region_product_kw (pyLower question) = false →
      time_kw (pyLower question) = false → visualizations question = ["pie_chart"]) ∧
    (sales_kw (pyLower question) = false → visualizations question = ["table"]) := by
  refine ⟨?_, ?_, ?_, ?_⟩ <;> intro hs <;>
    first
    | (intro hrp
       first
       | (intro htt; simp [visualizations, hs, hrp, htt])
       | simp [visualizations, hs, hrp])
    | simp [visualizations, hs]

theorem C7_visualization_policy_witness :
    visualizations "vendas por região" = ["bar_chart"] :=
  (C7_visualization_policy "vendas por região").1 (by decide) (by decide)

/-- C8: the scenario question selects the quantity measure, ranking with
limit 5, grouped by product, and the full emitted SQL is as expected —
ending in ` LIMIT 5` with `ORDER BY total_quantity DESC`. -/
theorem C8_scenario_top5 :
    fallback_sql "Mostre os top 5 produtos por quantidade vendida" =
      "SELECT product, SUM(quantity) AS total_quantity FROM sales GROUP BY product ORDER BY total_quantity DESC LIMIT 5" ∧
    measure_col (pyLower "Mostre os top 5 produtos por quantidade vendida") = "quantity" ∧
    wants_top (pyLower "Mostre os top 5 produtos por quantidade vendida") = true ∧
    limit_val (pyLower "Mostre os top 5 produtos por quantidade vendida") = 5 ∧
    group_cols (pyLower "Mostre os top 5 produtos por quantidade vendida") = ["product"] := by
  decide

/-- C9: the heuristic-path query is a function of the question alone — two
runs that both end on a fallback path (confidence ≠ 0.95), with arbitrary and
possibly different schemas, examples and model behaviour but the same
question, produce the identical query string. -/
theorem C9_schema_noninterference (hc₁ hc₂ : Bool)
    (mc₁ mc₂ : String → Except String String) (q : String) (s₁ s₂ : Option PyVal)
    (e₁ e₂ : Option (List (List (String × String)))) (r₁ r₂ : TranslationResult)
    (h₁ : generate_query hc₁ mc₁ { question := q, schema := s₁, examples := e₁ } = Except.ok r₁)
    (h₂ : generate_query hc₂ mc₂ { question := q, schema := s₂, examples := e₂ } = Except.ok r₂)
    (f₁ : r₁.confidence ≠ 0.95) (f₂ : r₂.confidence ≠ 0.95) :
    r₁.query = r₂.query := by
  rw [fallback_query_of_confidence_ne _ _ _ _ h₁ f₁,
    fallback_query_of_confidence_ne _ _ _ _ h₂ f₂]

theorem C9_schema_noninterference_witness :
    fallback_sql "vendas" = fallback_sql "vendas" :=
  C9_schema_noninterference false true (fun _ => Except.ok "ignored")
    (fun _ => Except.error "boom") "vendas" Option.none
    (some (PyVal.dict [("tables", PyVal.dict [])])) Option.none Option.none _ _
    rfl rfl (by norm_num) (by norm_num)

/-- C10: keyword detection is bare substring containment — in
`"laptop 2015"` the ranking keyword `top` occurs only inside `laptop` and the
digit 5 only inside the year `2015`, yet ranking triggers and the limit
variable is set to 5 (not left at its unset value 0), so the SQL gets
` LIMIT 5`. -/
theorem C10_substring_matching :
    wants_top (pyLower "laptop 2015") = true ∧
    pyIn "top" (pyLower "laptop 2015") = true ∧
    limit_val (pyLower "laptop 2015") = 5 ∧
    pyIn " LIMIT 5" (fallback_sql "laptop 2015") = true := by decide
